import Mathlib

/-!
# Verification of the Cosapi voice-report service

A shallow embedding of `src/core.py` and `src/app.py`: the SHA-256 content
hasher, the Python `datetime` ISO formatting used for timestamps, the
Deepgram response-payload extraction, the SQLite-backed report store with
its column migration, and the report operations (`create_report`,
`update_transcript`, `list_reports`, `get_report`, `list_reports_by_date`)
together with the FastAPI handlers that wrap them.

Machine integers are modelled as `Nat` reduced modulo `2^32` where the
source's arithmetic wraps; the external clock, the generated UUID and the
transcription provider's response are explicit parameters.
-/

namespace Cosapi

/-! ## SHA-256 (model of `hashlib.sha256`)

32-bit words are `Nat` values kept below `2^32` by explicit reduction. -/

def w32 (n : Nat) : Nat := n % 4294967296

def rotr32 (x n : Nat) : Nat := w32 ((x >>> n) + ((x <<< (32 - n)) % 4294967296))

def shaCh (x y z : Nat) : Nat := ((x &&& y) ^^^ ((4294967295 - w32 x) &&& z))

def shaMaj (x y z : Nat) : Nat := (x &&& y) ^^^ (x &&& z) ^^^ (y &&& z)

def bigSigma0 (x : Nat) : Nat := rotr32 x 2 ^^^ rotr32 x 13 ^^^ rotr32 x 22

def bigSigma1 (x : Nat) : Nat := rotr32 x 6 ^^^ rotr32 x 11 ^^^ rotr32 x 25

def smallSigma0 (x : Nat) : Nat := rotr32 x 7 ^^^ rotr32 x 18 ^^^ (x >>> 3)

def smallSigma1 (x : Nat) : Nat := rotr32 x 17 ^^^ rotr32 x 19 ^^^ (x >>> 10)

def shaK : List Nat :=
  [1116352408, 1899447441, 3049323471, 3921009573, 961987163,
   1508970993, 2453635748, 2870763221, 3624381080, 310598401,
   607225278, 1426881987, 1925078388, 2162078206, 2614888103,
   3248222580, 3835390401, 4022224774, 264347078, 604807628,
   770255983, 1249150122, 1555081692, 1996064986, 2554220882,
   2821834349, 2952996808, 3210313671, 3336571891, 3584528711,
   113926993, 338241895, 666307205, 773529912, 1294757372,
   1396182291, 1695183700, 1986661051, 2177026350, 2456956037,
   2730485921, 2820302411, 3259730800, 3345764771, 3516065817,
   3600352804, 4094571909, 275423344, 430227734, 506948616,
   659060556, 883997877, 958139571, 1322822218, 1537002063,
   1747873779, 1955562222, 2024104815, 2227730452, 2361852424,
   2428436474, 2756734187, 3204031479, 3329325298]

def shaH0 : List Nat :=
  [1779033703, 3144134277, 1013904242, 2773480762, 1359893119,
   2600822924, 528734635, 1541459225]

/-- Big-endian split of a 64-byte block into sixteen 32-bit words. -/
def blockWords : List Nat → List Nat
  | b0 :: b1 :: b2 :: b3 :: rest =>
      (((b0 * 256 + b1) * 256 + b2) * 256 + b3) :: blockWords rest
  | _ => []

/-- Message-schedule extension from 16 to 64 words. -/
def extendSchedule (w : List Nat) (i : Nat) : List Nat :=
  match i with
  | 0 => w
  | j + 1 =>
      let w := extendSchedule w j
      let n := w.length
      let a := w.getD (n - 16) 0
      let b := w.getD (n - 15) 0
      let c := w.getD (n - 7) 0
      let d := w.getD (n - 2) 0
      w ++ [w32 (smallSigma1 d + c + smallSigma0 b + a)]

/-- One round of the SHA-256 compression function on the 8-register state. -/
def shaRound (st : List Nat) (k w : Nat) : List Nat :=
  match st with
  | [a, b, c, d, e, f, g, h] =>
      let t1 := w32 (h + bigSigma1 e + shaCh e f g + k + w)
      let t2 := w32 (bigSigma0 a + shaMaj a b c)
      [w32 (t1 + t2), a, b, c, w32 (d + t1), e, f, g]
  | other => other

def compress (h : List Nat) (block : List Nat) : List Nat :=
  let w := extendSchedule (blockWords block) 48
  let st := (shaK.zip w).foldl (fun st kw => shaRound st kw.1 kw.2) h
  (h.zip st).map (fun p => w32 (p.1 + p.2))

def chunksAux : Nat → List Nat → List (List Nat)
  | 0, _ => []
  | _, [] => []
  | fuel + 1, b :: bs => (b :: bs.take 63) :: chunksAux fuel (bs.drop 63)

def chunks64 (bs : List Nat) : List (List Nat) := chunksAux bs.length bs

/-- Big-endian bytes of `n`, width `k` bytes. -/
def beBytes (k n : Nat) : List Nat :=
  match k with
  | 0 => []
  | j + 1 => beBytes j (n / 256) ++ [n % 256]

/-- SHA-256 padding: `0x80`, zeros to 56 mod 64, then the 64-bit bit length. -/
def shaPad (msg : List Nat) : List Nat :=
  let L := msg.length
  let zeros := (64 + 55 - (L % 64)) % 64
  msg ++ [0x80] ++ List.replicate zeros 0 ++ beBytes 8 (L * 8)

def hexDigit (n : Nat) : Char :=
  if n < 10 then Char.ofNat (48 + n) else Char.ofNat (87 + n)

def byteHex (b : Nat) : List Char := [hexDigit (b / 16), hexDigit (b % 16)]

def wordBytes (w : Nat) : List Nat :=
  [w / 16777216 % 256, w / 65536 % 256, w / 256 % 256, w % 256]

/-- `hashlib.sha256(bytes).hexdigest()`: the lowercase hex digest of a byte list. -/
def sha256Hex (msg : List Nat) : String :=
  let final := (chunks64 (shaPad msg)).foldl compress shaH0
  String.mk ((final.map wordBytes).flatten.map byteHex).flatten

/-- UTF-8 encoding of one code point (model of Python `str.encode("utf-8")`). -/
def utf8Char (c : Nat) : List Nat :=
  if c < 0x80 then [c]
  else if c < 0x800 then
    [0xC0 + c / 64, 0x80 + c % 64]
  else if c < 0x10000 then
    [0xE0 + c / 4096, 0x80 + c / 64 % 64, 0x80 + c % 64]
  else
    [0xF0 + c / 262144, 0x80 + c / 4096 % 64, 0x80 + c / 64 % 64, 0x80 + c % 64]

def utf8Bytes (s : String) : List Nat := (s.data.map (fun ch => utf8Char ch.toNat)).flatten

/-- `core.sha256_file`, applied to the file's content bytes. -/
def sha256_file (content : List Nat) : String := sha256Hex content

/-- `core.sha256_text`: SHA-256 hex digest of the UTF-8 encoding
(`(text or "").encode("utf-8")`; the `or ""` is the identity on `String`). -/
def sha256_text (text : String) : String := sha256Hex (utf8Bytes text)

/-! ## Python `datetime` (UTC) — model of `now_iso` / `iso_date_utc`

`create_report` reads the system clock twice, once through `now_iso()` and
once through `iso_date_utc()`; the two instants are explicit parameters of
the embedded operation. -/

structure PyDate where
  year : Nat
  month : Nat
  day : Nat
  deriving DecidableEq, Repr

structure PyDateTime where
  date : PyDate
  hour : Nat
  minute : Nat
  second : Nat
  microsecond : Nat
  deriving DecidableEq, Repr

def digitChar10 (n : Nat) : Char := Char.ofNat (48 + n % 10)

/-- Decimal digits of `n`, most significant first (fuel-driven so the
kernel can evaluate it). -/
def natDecAux : Nat → Nat → List Char
  | 0, _ => []
  | fuel + 1, n =>
      if n < 10 then [digitChar10 n]
      else natDecAux fuel (n / 10) ++ [digitChar10 n]

def natDec (n : Nat) : List Char := natDecAux (n + 1) n

/-- Decimal rendering of a non-negative integer (Python `%d`). -/
def natStr (n : Nat) : String := String.mk (natDec n)

/-- Decimal rendering of `n` left-padded with zeros to width `w`
(Python `%0wd` for non-negative arguments). -/
def padNum (w n : Nat) : String :=
  String.mk (List.replicate (w - (natDec n).length) '0' ++ natDec n)

/-- `date.isoformat()`: `yyyy-mm-dd`. -/
def PyDate.iso (d : PyDate) : String :=
  padNum 4 d.year ++ "-" ++ padNum 2 d.month ++ "-" ++ padNum 2 d.day

/-- `datetime.isoformat()` on a timezone-aware UTC value: Python omits the
fractional part when `microsecond == 0` and appends the `+00:00` offset. -/
def PyDateTime.iso (t : PyDateTime) : String :=
  t.date.iso ++ "T" ++ padNum 2 t.hour ++ ":" ++ padNum 2 t.minute ++ ":" ++
    padNum 2 t.second ++
    (if t.microsecond == 0 then "" else "." ++ padNum 6 t.microsecond) ++
    "+00:00"

/-- `core.now_iso`, applied to the instant the clock returned. -/
def now_iso (t : PyDateTime) : String := t.iso

/-- `core.iso_date_utc`, applied to the instant the clock returned. -/
def iso_date_utc (t : PyDateTime) : String := t.date.iso

/-! ## JSON values and the Python access idioms of `deepgram_transcribe` -/

inductive Json where
  | null : Json
  | bool (b : Bool) : Json
  | num (n : Int) : Json
  | str (s : String) : Json
  | arr (items : List Json) : Json
  | obj (fields : List (String × Json)) : Json

/-- Python exceptions that the extraction expression in
`deepgram_transcribe` can raise, the two `RuntimeError`s it raises itself,
and the primary-key violation `sqlite3` raises on a duplicate insert. -/
inductive PyErr where
  | attributeError : PyErr
  | indexError : PyErr
  | keyError : PyErr
  | typeError : PyErr
  | runtimeError (msg : String) : PyErr
  | integrityError : PyErr
  deriving DecidableEq, Repr

/-- `str(e)` for the exceptions above, as used by the HTTP layer's
`HTTPException(status_code=400, detail=str(e))`. -/
def pyErrStr : PyErr → String
  | .attributeError => "AttributeError"
  | .indexError => "IndexError: list index out of range"
  | .keyError => "KeyError"
  | .typeError => "TypeError"
  | .runtimeError msg => msg
  | .integrityError => "UNIQUE constraint failed: reports.report_id"

/-- Python `d.get(key, default)`: only `dict` has `.get`; any other value
raises `AttributeError`. A repeated key in a JSON object keeps the last
binding, as `json.loads` does. -/
def pyGet (v : Json) (key : String) (dflt : Json) : Except PyErr Json :=
  match v with
  | .obj fields =>
      match (fields.reverse.lookup key) with
      | some x => .ok x
      | none => .ok dflt
  | _ => .error .attributeError

/-- Python `v[0]`: first element of a list, first character of a string
(`IndexError` when empty), `KeyError` on a dict, `TypeError` otherwise. -/
def pyIndex0 (v : Json) : Except PyErr Json :=
  match v with
  | .arr (x :: _) => .ok x
  | .arr [] => .error .indexError
  | .str s =>
      match s.data with
      | c :: _ => .ok (.str (String.mk [c]))
      | [] => .error .indexError
  | .obj _ => .error .keyError
  | _ => .error .typeError

/-- Python truthiness of a JSON value. -/
def pyTruthy : Json → Bool
  | .null => false
  | .bool b => b
  | .num n => n != 0
  | .str s => !s.isEmpty
  | .arr items => !items.isEmpty
  | .obj fields => !fields.isEmpty

/-- The whitespace characters `str.strip()` removes (the ASCII ones). -/
def pySpace (c : Char) : Bool :=
  [32, 9, 10, 13, 11, 12].contains c.toNat

/-- Python `str.strip()`: drop leading and trailing whitespace. -/
def pyStrip (s : String) : String :=
  String.mk (((s.data.dropWhile pySpace).reverse.dropWhile pySpace).reverse)

/-- Python `(transcript or "").strip()`: a falsy value is replaced by `""`;
a truthy non-string has no `.strip` and raises `AttributeError`. -/
def pyOrEmptyStrip (v : Json) : Except PyErr String :=
  if pyTruthy v then
    match v with
    | .str s => .ok (pyStrip s)
    | _ => .error .attributeError
  else .ok ""

/-- The payload-extraction expression of `core.deepgram_transcribe`:
`data.get("results", {}).get("channels", [{}])[0].get("alternatives", [{}])[0].get("transcript", "")`
followed by `(transcript or "").strip()`; the first exception wins, as in
Python. -/
def extractTranscript (data : Json) : Except PyErr String :=
  match pyGet data "results" (.obj []) with
  | .error e => .error e
  | .ok results =>
    match pyGet results "channels" (.arr [.obj []]) with
    | .error e => .error e
    | .ok channels =>
      match pyIndex0 channels with
      | .error e => .error e
      | .ok ch0 =>
        match pyGet ch0 "alternatives" (.arr [.obj []]) with
        | .error e => .error e
        | .ok alternatives =>
          match pyIndex0 alternatives with
          | .error e => .error e
          | .ok alt0 =>
            match pyGet alt0 "transcript" (.str "") with
            | .error e => .error e
            | .ok transcript => pyOrEmptyStrip transcript

/-- What the provider sent back for this call: HTTP status, raw text, and
the parsed JSON body when the body parses (`resp.json()` raises otherwise). -/
structure ProviderResponse where
  status : Nat
  text : String
  json : Except PyErr Json

/-- `core.deepgram_transcribe`. The `DEEPGRAM_API_KEY` environment variable
(`none` when unset; Python also rejects a set-but-empty value, since
`not api_key` is true for `""`) and the provider's response are explicit
parameters. -/
def deepgram_transcribe (apiKey : Option String) (resp : ProviderResponse) :
    Except PyErr String :=
  match apiKey with
  | none => .error (.runtimeError "Falta DEEPGRAM_API_KEY en variables de entorno.")
  | some k =>
      if k.isEmpty then
        .error (.runtimeError "Falta DEEPGRAM_API_KEY en variables de entorno.")
      else if resp.status != 200 then
        .error (.runtimeError ("Deepgram error " ++ natStr resp.status ++ ": " ++ resp.text))
      else
        match resp.json with
        | .error e => .error e
        | .ok data => extractTranscript data

/-! ## The SQLite store (table `reports`) -/

structure Row where
  report_id : String
  created_at : String
  created_date : Option String
  user_email : Option String
  project_id : Option String
  audio_path : Option String
  audio_sha256 : Option String
  transcript_text : Option String
  transcript_sha256 : Option String
  photo_url : Option String
  photo_sha256 : Option String
  deriving DecidableEq, Repr

/-- A table is its column list (in declaration order, as `PRAGMA table_info`
reports it) together with its rows.  A row's value for a column the schema
does not yet have is `none`, exactly the value `ALTER TABLE ... ADD COLUMN`
gives existing rows when the column appears. -/
structure Table where
  cols : List String
  rows : List Row

/-- The database file: `none` before the table has ever been created. -/
abbrev DB := Option Table

/-- The columns of the `CREATE TABLE IF NOT EXISTS reports (...)` statement,
in order. -/
def fullCols : List String :=
  ["report_id", "created_at", "created_date", "user_email", "project_id",
   "audio_path", "audio_sha256", "transcript_text", "transcript_sha256",
   "photo_url", "photo_sha256"]

/-- The columns `init_db` passes to `ensure_col`, in order. -/
def migrationCols : List String :=
  ["created_date", "user_email", "project_id", "audio_path", "audio_sha256",
   "transcript_text", "transcript_sha256", "photo_url", "photo_sha256"]

/-- `ensure_col`: `ALTER TABLE reports ADD COLUMN name` when `name` is not
among the existing columns (appends at the end of the schema). -/
def ensure_col (cols : List String) (name : String) : List String :=
  if name ∈ cols then cols else cols ++ [name]

/-- `core.init_db`: create the table when absent, then add each column of
`migrationCols` that is missing.  Always leaves a table behind. -/
def init_db : DB → Table
  | none => { cols := migrationCols.foldl ensure_col fullCols, rows := [] }
  | some t => { t with cols := migrationCols.foldl ensure_col t.cols }

/-- `INSERT INTO reports ...`: appends the row, or raises
`sqlite3.IntegrityError` when the primary key `report_id` already exists. -/
def insertRow (t : Table) (r : Row) : Except PyErr Table :=
  if t.rows.any (fun x => x.report_id == r.report_id) then .error .integrityError
  else .ok { t with rows := t.rows ++ [r] }

/-! ## Report operations (`core.py`) -/

/-- The arguments of `core.create_report`.  File contents live behind the
paths, so the audio bytes and (when a photo disk path is given) the photo
bytes come along with their paths. -/
structure CreateArgs where
  audio_path : String
  audioContent : List Nat
  audio_mime : String
  photo_url : Option String
  photo_disk : Option (String × List Nat)
  user_email : Option String
  project_id : Option String
  deriving Repr

/-- The dict `core.create_report` returns. -/
structure CreateResp where
  report_id : String
  created_at : String
  created_date : String
  project_id : Option String
  user_email : Option String
  transcript_text : String
  photo_url : Option String
  deriving DecidableEq, Repr

/-- The row `create_report` inserts: the generated id, the two timestamp
strings, the caller metadata, the audio path with its digest, the
transcript with its digest, and the photo reference with its digest (both
NULL when no photo disk path was given). -/
def newRow (tAt tDate : PyDateTime) (reportId : String) (a : CreateArgs)
    (transcript : String) : Row :=
  { report_id := reportId, created_at := now_iso tAt,
    created_date := some (iso_date_utc tDate),
    user_email := a.user_email, project_id := a.project_id,
    audio_path := some a.audio_path,
    audio_sha256 := some (sha256_file a.audioContent),
    transcript_text := some transcript,
    transcript_sha256 := some (sha256_text transcript),
    photo_url := a.photo_url,
    photo_sha256 := a.photo_disk.map (fun pd => sha256_file pd.2) }

/-- `core.create_report`.  The clock is read twice (`now_iso` then
`iso_date_utc`), so the two instants `tAt` and `tDate` are separate
parameters, as are the generated `uuid4` and the provider interaction. -/
def create_report (apiKey : Option String) (presp : ProviderResponse)
    (tAt tDate : PyDateTime) (reportId : String) (a : CreateArgs) (db : DB) :
    DB × Except PyErr CreateResp :=
  let t := init_db db
  let created_at := now_iso tAt
  let created_date := iso_date_utc tDate
  match deepgram_transcribe apiKey presp with
  | .error e => (some t, .error e)
  | .ok transcript =>
      let row : Row := newRow tAt tDate reportId a transcript
      match insertRow t row with
      | .error e => (some t, .error e)
      | .ok t2 =>
          (some t2,
           .ok { report_id := reportId, created_at := created_at,
                 created_date := created_date, project_id := a.project_id,
                 user_email := a.user_email, transcript_text := transcript,
                 photo_url := a.photo_url })

/-- The dict `core.update_transcript` returns. -/
structure UpdateResp where
  report_id : String
  saved : Bool
  deriving DecidableEq, Repr

/-- The per-row effect of `UPDATE reports SET transcript_text=?,
transcript_sha256=? WHERE report_id=?`: rows whose key matches get the new
text and its digest, the rest are untouched. -/
def updateRow (report_id new_text : String) (r : Row) : Row :=
  if r.report_id == report_id then
    { r with transcript_text := some new_text,
             transcript_sha256 := some (sha256_text new_text) }
  else r

/-- `core.update_transcript`: applies `updateRow` across the table (the
`WHERE` clause matches at most one row, `report_id` being the primary key)
and reports `saved` unconditionally — a missing id is a no-op, not an
error. -/
def update_transcript (db : DB) (report_id new_text : String) :
    DB × UpdateResp :=
  let t := init_db db
  let rows := t.rows.map (updateRow report_id new_text)
  (some { t with rows := rows }, { report_id := report_id, saved := true })

/-- `core.get_report`: `SELECT * FROM reports WHERE report_id=?` with
`fetchone()` — the first matching row, or `None`. -/
def get_report (db : DB) (report_id : String) : DB × Option Row :=
  let t := init_db db
  (some t, t.rows.find? (fun r => r.report_id == report_id))

/-- One element of the `list_reports` result: the selected columns plus the
computed `transcript_snippet`. -/
structure ListItem where
  report_id : String
  created_at : String
  created_date : Option String
  user_email : Option String
  project_id : Option String
  transcript_text : Option String
  photo_url : Option String
  transcript_snippet : String
  deriving DecidableEq, Repr

/-- The snippet loop of `core.list_reports`:
`t = (r.get("transcript_text") or "").strip()` then the first 140
characters with the marker appended when longer. -/
def rowToItem (r : Row) : ListItem :=
  let t := pyStrip (r.transcript_text.getD "")
  { report_id := r.report_id, created_at := r.created_at,
    created_date := r.created_date, user_email := r.user_email,
    project_id := r.project_id, transcript_text := r.transcript_text,
    photo_url := r.photo_url,
    transcript_snippet :=
      if t.length > 140 then String.mk (t.data.take 140) ++ "â€¦" else t }

/-- SQLite `LIMIT n`: truncates to `n` rows when `n ≥ 0`; a negative limit
means no limit. -/
def sqlLimit (n : Int) (xs : List α) : List α :=
  if n < 0 then xs else xs.take n.toNat

/-- SQLite's default TEXT collation (`memcmp` on the UTF-8 bytes), as the
lexicographic order on code points — the two agree on valid UTF-8. -/
def sqlTextLe (a b : String) : Bool :=
  decide (a.data.map Char.toNat ≤ b.data.map Char.toNat)

/-- Comparator of `ORDER BY created_at DESC` on TEXT values. -/
def createdAtDesc (a b : Row) : Bool := sqlTextLe b.created_at a.created_at

/-- Comparator of `ORDER BY created_at ASC`. -/
def createdAtAsc (a b : Row) : Bool := sqlTextLe a.created_at b.created_at

/-- Insert into a `le`-sorted list, before the first element `r` may
precede. -/
def insertSorted (le : α → α → Bool) (r : α) : List α → List α
  | [] => [r]
  | x :: xs => if le r x then r :: x :: xs else x :: insertSorted le r xs

/-- The ordering `ORDER BY` applies (an insertion sort; SQLite fixes no
tie-breaking order, this is one refinement of it). -/
def sortRows (le : α → α → Bool) : List α → List α
  | [] => []
  | x :: xs => insertSorted le x (sortRows le xs)

/-- `core.list_reports`: select, order by `created_at` descending, apply
`LIMIT`, then attach snippets. -/
def list_reports (db : DB) (limit : Int) : DB × List ListItem :=
  let t := init_db db
  let sorted := sortRows createdAtDesc t.rows
  (some t, (sqlLimit limit sorted).map rowToItem)

/-- One element of the `list_reports_by_date` result (its `SELECT` omits
`created_date`). -/
structure DateItem where
  report_id : String
  created_at : String
  user_email : Option String
  project_id : Option String
  transcript_text : Option String
  photo_url : Option String
  deriving DecidableEq, Repr

def rowToDateItem (r : Row) : DateItem :=
  { report_id := r.report_id, created_at := r.created_at,
    user_email := r.user_email, project_id := r.project_id,
    transcript_text := r.transcript_text, photo_url := r.photo_url }

/-- `core.list_reports_by_date`: `WHERE created_date = ?` (a SQL equality,
which no NULL `created_date` satisfies) ordered by `created_at` ascending. -/
def list_reports_by_date (db : DB) (d : String) : DB × List DateItem :=
  let t := init_db db
  let matching := t.rows.filter (fun r => r.created_date == some d)
  (some t, (sortRows createdAtAsc matching).map rowToDateItem)

/-! ## HTTP surface (`app.py`) -/

/-- Last index of `c` in `cs`, or `-1` (Python `str.rfind`). -/
def rfindChar (cs : List Char) (c : Char) : Int :=
  (cs.foldl (fun (p : Int × Int) x =>
    (p.1 + 1, if x == c then p.1 else p.2)) (0, -1)).2

/-- `os.path.splitext(p)[1]` (POSIX): the suffix from the last dot, provided
some non-dot character stands between the last path separator and that dot;
otherwise the empty string. -/
def splitextExt (p : String) : String :=
  let cs := p.data
  let sepIndex := rfindChar cs '/'
  let dotIndex := rfindChar cs '.'
  if sepIndex < dotIndex then
    let between := (cs.drop (sepIndex + 1).toNat).take (dotIndex - sepIndex - 1).toNat
    if between.any (fun ch => ch != '.') then String.mk (cs.drop dotIndex.toNat)
    else ""
  else ""

/-- Python `s or dflt` on strings: the empty string is falsy. -/
def pyOrStr (s dflt : String) : String := if s.isEmpty then dflt else s

/-- A multipart file part as FastAPI's `UploadFile` presents it. -/
structure Upload where
  filename : Option String
  content_type : Option String
  content : List Nat
  deriving Repr

/-- `app.api_create_report`.  The upload directory (the
`COSAPI_UPLOAD_DIR` override or its default) and the three generated
`uuid4` values are parameters; file writes are implicit in passing the
uploaded bytes through to `create_report`.  A `create_report` exception
becomes `HTTPException(400, str(e))`. -/
def api_create_report (uploadDir : String) (apiKey : Option String)
    (presp : ProviderResponse) (tAt tDate : PyDateTime)
    (audioUuid photoUuid reportUuid : String)
    (audio : Upload) (photo : Option Upload)
    (user_email project_id : Option String) (db : DB) :
    DB × Except (Nat × String) CreateResp :=
  let audio_ext := pyOrStr (splitextExt (audio.filename.getD "")) ".webm"
  let audio_name := audioUuid ++ audio_ext
  let audio_path := uploadDir ++ "/audio/" ++ audio_name
  let (photo_url, photo_disk) :=
    match photo with
    | none => (none, none)
    | some ph =>
        let photo_ext := pyOrStr (splitextExt (ph.filename.getD "")) ".jpg"
        let photo_name := photoUuid ++ photo_ext
        let photo_disk_path := uploadDir ++ "/photos/" ++ photo_name
        (some ("/uploads/photos/" ++ photo_name),
         some (photo_disk_path, ph.content))
  let audio_mime := pyOrStr (audio.content_type.getD "") "audio/webm"
  let args : CreateArgs :=
    { audio_path := audio_path, audioContent := audio.content,
      audio_mime := audio_mime, photo_url := photo_url,
      photo_disk := photo_disk, user_email := user_email,
      project_id := project_id }
  match create_report apiKey presp tAt tDate reportUuid args db with
  | (db2, .ok rep) => (db2, .ok rep)
  | (db2, .error e) => (db2, .error (400, pyErrStr e))

/-- `app.api_update_transcript`: a `get_report` existence check first —
`HTTPException(404, "Reporte no encontrado")` when it returns `None` —
then `update_transcript`. -/
def api_update_transcript (db : DB) (report_id transcript_text : String) :
    DB × Except (Nat × String) UpdateResp :=
  match get_report db report_id with
  | (db1, none) => (db1, .error (404, "Reporte no encontrado"))
  | (db1, some _) =>
      let (db2, resp) := update_transcript db1 report_id transcript_text
      (db2, .ok resp)

/-! ## Observation helpers used by the statements -/

/-- The rows held in the database file (none before the table exists). -/
def rowsList : DB → List Row
  | none => []
  | some t => t.rows

/-- The calendar-date component of an ISO-8601 timestamp string: everything
before the `T` separator. -/
def dateComponent (s : String) : String :=
  String.mk (s.data.takeWhile (fun c => c != 'T'))

/-- The `photo_url` field of a successful create response. -/
def respPhotoUrl : Except (Nat × String) CreateResp → Option (Option String)
  | .ok rep => some rep.photo_url
  | .error _ => none

/-- A row with every nullable column NULL, used as the default of `List.getD`. -/
def dummyRow : Row :=
  { report_id := "", created_at := "", created_date := none,
    user_email := none, project_id := none, audio_path := none,
    audio_sha256 := none, transcript_text := none, transcript_sha256 := none,
    photo_url := none, photo_sha256 := none }

/-- Well-typedness of the first recognition alternative for the amended C2
claim: its `transcript` field, when present, is a string or a falsy value. -/
def benignAlt : Json → Bool
  | .obj fs =>
      match fs.reverse.lookup "transcript" with
      | none => true
      | some (.str _) => true
      | some v => !pyTruthy v
  | _ => false

/-- Well-typedness of the first channel for the amended C2 claim. -/
def benignChannel : Json → Bool
  | .obj fs =>
      match fs.reverse.lookup "alternatives" with
      | none => true
      | some (.arr (a0 :: _)) => benignAlt a0
      | some _ => false
  | _ => false

/-- Well-typedness of a 200 payload along the extraction path, for the
amended C2 claim: the payload is an object, and each field the extraction
reads is either absent (taking its documented default) or shaped the way
the chained expression expects — `results` an object, `channels` and
`alternatives` nonempty lists whose first elements are objects, and
`transcript` a string or falsy. -/
def benignPayload : Json → Bool
  | .obj fs =>
      match fs.reverse.lookup "results" with
      | none => true
      | some (.obj fs2) =>
          (match fs2.reverse.lookup "channels" with
           | none => true
           | some (.arr (c0 :: _)) => benignChannel c0
           | some _ => false)
      | some _ => false
  | _ => false

/-- The extraction path stops at a missing key: `results`, `channels`,
`alternatives` or `transcript` is absent from its parent object (the levels
above it being present and shaped as the extraction expects), so every
later `.get` takes its documented default and the transcript degrades to
the empty string. -/
def transcriptFieldAbsent : Json → Bool
  | .obj fs =>
      match fs.reverse.lookup "results" with
      | none => true
      | some (.obj fs2) =>
          (match fs2.reverse.lookup "channels" with
           | none => true
           | some (.arr (Json.obj fs3 :: _)) =>
               (match fs3.reverse.lookup "alternatives" with
                | none => true
                | some (.arr (Json.obj fs4 :: _)) =>
                    (match fs4.reverse.lookup "transcript" with
                     | none => true
                     | some _ => false)
                | some _ => false)
           | some _ => false)
      | some _ => false
  | _ => false

/-- All columns `update_transcript` must not touch agree between `r2` and
`r` (every column except `transcript_text` and `transcript_sha256`). -/
def framePreserved (r2 r : Row) : Prop :=
  r2.report_id = r.report_id ∧ r2.created_at = r.created_at ∧
  r2.created_date = r.created_date ∧ r2.user_email = r.user_email ∧
  r2.project_id = r.project_id ∧ r2.audio_path = r.audio_path ∧
  r2.audio_sha256 = r.audio_sha256 ∧ r2.photo_url = r.photo_url ∧
  r2.photo_sha256 = r.photo_sha256

/-! ## Concrete fixtures for witnesses and counterexamples -/

/-- A well-shaped Deepgram payload carrying the transcript `"muro listo"`. -/
def goodPayload : Json :=
  .obj [("results", .obj [("channels", .arr [.obj [("alternatives",
    .arr [.obj [("transcript", .str "muro listo ")]])]])])]

/-- A 200 response with `goodPayload` as body. -/
def okProviderResponse : ProviderResponse :=
  { status := 200, text := "", json := .ok goodPayload }

/-- A 200 response whose `channels` list is present but empty. -/
def emptyChannelsResponse : ProviderResponse :=
  { status := 200, text := "",
    json := .ok (.obj [("results", .obj [("channels", .arr [])])]) }

def sampleT1 : PyDateTime :=
  { date := { year := 2026, month := 10, day := 11 },
    hour := 23, minute := 59, second := 59, microsecond := 999999 }

def sampleT2 : PyDateTime :=
  { date := { year := 2026, month := 10, day := 12 },
    hour := 0, minute := 0, second := 0, microsecond := 0 }

def sampleArgs : CreateArgs :=
  { audio_path := "uploads/audio/a.webm", audioContent := [82, 73, 70, 70],
    audio_mime := "audio/webm", photo_url := none, photo_disk := none,
    user_email := none, project_id := some "Frente-1" }

def sampleUpload : Upload :=
  { filename := some "voice.webm", content_type := some "audio/webm",
    content := [82, 73, 70, 70] }

/-- The store after one successful photo-less creation (both clock reads on
2026-10-11). -/
def sampleCreatedDB : DB :=
  (create_report (some "k") okProviderResponse sampleT1 sampleT1 "rid-1"
    sampleArgs none).1

/-- The store after a successful creation whose two clock reads straddle
midnight UTC. -/
def midnightCreatedDB : DB :=
  (create_report (some "k") okProviderResponse sampleT1 sampleT2 "rid-1"
    sampleArgs none).1

/-- A two-row store with plain column values. -/
def twoRowDB : DB :=
  some { cols := fullCols,
         rows := [{ report_id := "r1", created_at := "2026-10-10T08:00:00+00:00",
                    created_date := some "2026-10-10", user_email := some "a@x",
                    project_id := some "P1", audio_path := some "a1.webm",
                    audio_sha256 := some "h1", transcript_text := some "uno",
                    transcript_sha256 := some "s1", photo_url := none,
                    photo_sha256 := none },
                  { report_id := "r2", created_at := "2026-10-11T09:00:00+00:00",
                    created_date := some "2026-10-11", user_email := none,
                    project_id := some "P2", audio_path := some "a2.webm",
                    audio_sha256 := some "h2", transcript_text := some "dos",
                    transcript_sha256 := some "s2", photo_url := some "/uploads/photos/p.jpg",
                    photo_sha256 := some "h3" }] }

/-- The database states reachable through the public operations, starting
from a missing database file: schema initialisation, report creation (any
environment, clock, uuid and arguments) and transcript editing. -/
inductive Reachable : DB → Prop where
  | start : Reachable none
  | migrate {db : DB} : Reachable db → Reachable (some (init_db db))
  | create {db : DB} (apiKey : Option String) (presp : ProviderResponse)
      (tAt tDate : PyDateTime) (reportId : String) (a : CreateArgs) :
      Reachable db → Reachable (create_report apiKey presp tAt tDate reportId a db).1
  | update {db : DB} (report_id new_text : String) :
      Reachable db → Reachable (update_transcript db report_id new_text).1

/-! ## General lemmas -/

/-- The embedded hasher reproduces the FIPS 180-4 digest of the empty
message. -/
theorem sha256_empty_vector :
    sha256_text "" =
      "e3b0c44298fc1c149afbf4c8996fb92427ae41e4649b934ca495991b7852b855" := by
  decide

/-- The embedded hasher reproduces the FIPS 180-4 digest of `"abc"`. -/
theorem sha256_abc_vector :
    sha256_text "abc" =
      "ba7816bf8f01cfea414140de5dae2223b00361a396177a9cb410ff61f20015ad" := by
  decide

theorem rows_init_db (db : DB) : (init_db db).rows = rowsList db := by
  cases db with
  | none => simp only [init_db, rowsList]
  | some t => simp only [init_db, rowsList]

theorem rowsList_some_init (db : DB) :
    rowsList (some (init_db db)) = rowsList db :=
  rows_init_db db

theorem create_state_error (apiKey : Option String)
    (presp : ProviderResponse) (tAt tDate : PyDateTime) (reportId : String)
    (a : CreateArgs) (db : DB) (e : PyErr)
    (hd : deepgram_transcribe apiKey presp = .error e) :
    (create_report apiKey presp tAt tDate reportId a db).1 =
      some (init_db db) := by
  simp only [create_report, hd]

theorem create_state_dup (apiKey : Option String) (presp : ProviderResponse)
    (tAt tDate : PyDateTime) (reportId : String) (a : CreateArgs) (db : DB)
    (ts : String) (hd : deepgram_transcribe apiKey presp = .ok ts)
    (hdup : ((init_db db).rows.any fun x =>
      x.report_id == (newRow tAt tDate reportId a ts).report_id) = true) :
    (create_report apiKey presp tAt tDate reportId a db).1 =
      some (init_db db) := by
  simp only [create_report, insertRow, hd]
  rw [if_pos hdup]

theorem create_rows_ok (apiKey : Option String) (presp : ProviderResponse)
    (tAt tDate : PyDateTime) (reportId : String) (a : CreateArgs) (db : DB)
    (ts : String) (hd : deepgram_transcribe apiKey presp = .ok ts)
    (hdup : ¬ ((init_db db).rows.any fun x =>
      x.report_id == (newRow tAt tDate reportId a ts).report_id) = true) :
    rowsList (create_report apiKey presp tAt tDate reportId a db).1 =
      rowsList db ++ [newRow tAt tDate reportId a ts] := by
  conv_lhs => simp only [create_report, insertRow, hd]
  rw [if_neg hdup]
  conv_lhs => simp only [rowsList]
  rw [rows_init_db]

theorem mem_ensure_col_of_mem {a : String} {cols : List String} (b : String)
    (h : a ∈ cols) : a ∈ ensure_col cols b := by
  unfold ensure_col
  split
  · exact h
  · exact List.mem_append_left _ h

theorem mem_ensure_col_self (cols : List String) (a : String) :
    a ∈ ensure_col cols a := by
  unfold ensure_col
  split
  · assumption
  · exact List.mem_append_right _ (List.mem_singleton.mpr rfl)

theorem mem_foldl_ensure_of_mem :
    ∀ (names : List String) {cols : List String} {a : String},
      a ∈ cols → a ∈ names.foldl ensure_col cols
  | [], _, _, h => h
  | b :: names, _, _, h =>
      mem_foldl_ensure_of_mem names (mem_ensure_col_of_mem b h)

theorem mem_foldl_ensure_of_mem_names :
    ∀ (names : List String) (cols : List String) {a : String},
      a ∈ names → a ∈ names.foldl ensure_col cols := by
  intro names
  induction names with
  | nil => intro cols a h; cases h
  | cons b names ih =>
      intro cols a h
      rcases List.mem_cons.mp h with rfl | h
      · exact mem_foldl_ensure_of_mem names (mem_ensure_col_self cols a)
      · exact ih _ h

theorem foldl_ensure_eq_of_all_mem :
    ∀ (names : List String) (cols : List String),
      (∀ a ∈ names, a ∈ cols) → names.foldl ensure_col cols = cols := by
  intro names
  induction names with
  | nil => intro cols _; rfl
  | cons b names ih =>
      intro cols h
      have hb : ensure_col cols b = cols := by
        unfold ensure_col
        rw [if_pos (h b (List.mem_cons_self b names))]
      show List.foldl ensure_col (ensure_col cols b) names = cols
      rw [hb]
      exact ih cols (fun a ha => h a (List.mem_cons_of_mem b ha))

theorem migrate_idempotent (cols : List String) :
    migrationCols.foldl ensure_col (migrationCols.foldl ensure_col cols) =
      migrationCols.foldl ensure_col cols :=
  foldl_ensure_eq_of_all_mem _ _
    (fun _ ha => mem_foldl_ensure_of_mem_names _ _ ha)

/-! ## C9: schema migration is idempotent and loses no data -/

/-- C9: running `init_db` twice in a row yields the same table (same schema,
same rows) as running it once, and neither run alters or drops a row: the
rows after a run are exactly the rows before it (a freshly created table
has none). -/
theorem init_db_idempotent (db : DB) :
    init_db (some (init_db db)) = init_db db ∧
      (init_db db).rows = rowsList db ∧
      (init_db (some (init_db db))).rows = (init_db db).rows := by
  refine ⟨?_, rows_init_db db, rows_init_db (some (init_db db))⟩
  cases db with
  | none =>
      simp only [init_db]
      rw [migrate_idempotent]
  | some t =>
      simp only [init_db]
      rw [migrate_idempotent]

/-! ## C4: a transcription failure aborts creation with no row written -/

/-- C4: when the transcription step fails (missing credential or provider
error — any `deepgram_transcribe` exception), the create endpoint surfaces
a 400 creation failure and writes no row: the stored rows are exactly the
rows before the call. -/
theorem create_aborts_on_transcription_failure
    (uploadDir : String) (apiKey : Option String) (presp : ProviderResponse)
    (tAt tDate : PyDateTime) (audioUuid photoUuid reportUuid : String)
    (audio : Upload) (photo : Option Upload)
    (user_email project_id : Option String) (db : DB) (e : PyErr)
    (h : deepgram_transcribe apiKey presp = .error e) :
    rowsList (api_create_report uploadDir apiKey presp tAt tDate audioUuid
        photoUuid reportUuid audio photo user_email project_id db).1 =
      rowsList db ∧
    (api_create_report uploadDir apiKey presp tAt tDate audioUuid photoUuid
        reportUuid audio photo user_email project_id db).2 =
      .error (400, pyErrStr e) := by
  simp only [api_create_report, create_report, h]
  refine ⟨?_, trivial⟩
  simp only [rowsList]
  exact rows_init_db db

/-! ## C5: editing a missing report id yields 404 and creates no row -/

/-- C5: when no stored row carries `report_id`, the edit-transcript endpoint
answers `HTTPException(404, "Reporte no encontrado")` and afterwards the
store still has no row with that id. -/
theorem edit_missing_report_404 (db : DB) (rid text : String)
    (h : ∀ r ∈ rowsList db, r.report_id ≠ rid) :
    (api_update_transcript db rid text).2 =
      .error (404, "Reporte no encontrado") ∧
    ∀ r ∈ rowsList (api_update_transcript db rid text).1,
      r.report_id ≠ rid := by
  have hf : (init_db db).rows.find? (fun r => r.report_id == rid) = none := by
    refine List.find?_eq_none.mpr ?_
    intro x hx
    rw [rows_init_db db] at hx
    simpa using h x hx
  simp only [api_update_transcript, get_report, hf]
  refine ⟨trivial, ?_⟩
  intro r hr
  simp only [rowsList] at hr
  rw [rows_init_db db] at hr
  exact h r hr

/-! ## C10: `update_transcript` touches nothing but the transcript pair -/

theorem framePreserved_refl (r : Row) : framePreserved r r :=
  ⟨rfl, rfl, rfl, rfl, rfl, rfl, rfl, rfl, rfl⟩

theorem updateRow_frame (rid text : String) (r : Row) :
    framePreserved (updateRow rid text r) r ∧
      (r.report_id ≠ rid → updateRow rid text r = r) := by
  unfold updateRow
  split
  · next hmatch =>
      refine ⟨⟨rfl, rfl, rfl, rfl, rfl, rfl, rfl, rfl, rfl⟩, ?_⟩
      intro hne
      exact absurd (by simpa using hmatch) hne
  · exact ⟨framePreserved_refl r, fun _ => rfl⟩

theorem frame_aux (rid text : String) :
    ∀ (l : List Row) (i : Nat),
      framePreserved ((l.map (updateRow rid text)).getD i dummyRow)
        (l.getD i dummyRow) ∧
      ((l.getD i dummyRow).report_id ≠ rid →
        (l.map (updateRow rid text)).getD i dummyRow = l.getD i dummyRow)
  | [], _ => ⟨framePreserved_refl _, fun _ => rfl⟩
  | r :: _, 0 => updateRow_frame rid text r
  | _ :: l, i + 1 => frame_aux rid text l i

/-- C10: `update_transcript` keeps the table's length, keeps every column
other than `transcript_text`/`transcript_sha256` of every row (position by
position), and leaves any row whose `report_id` differs from the edited id
entirely unchanged. -/
theorem update_transcript_frame (db : DB) (rid text : String) :
    (rowsList (update_transcript db rid text).1).length =
      (rowsList db).length ∧
    ∀ i : Nat,
      framePreserved ((rowsList (update_transcript db rid text).1).getD i dummyRow)
        ((rowsList db).getD i dummyRow) ∧
      (((rowsList db).getD i dummyRow).report_id ≠ rid →
        (rowsList (update_transcript db rid text).1).getD i dummyRow =
          (rowsList db).getD i dummyRow) := by
  have hmap : rowsList (update_transcript db rid text).1 =
      (rowsList db).map (updateRow rid text) := by
    conv_lhs => simp only [update_transcript, rowsList]
    rw [rows_init_db]
  rw [hmap]
  exact ⟨List.length_map _ _, fun i => frame_aux rid text (rowsList db) i⟩

/-! ## C1: `transcript_sha256` always digests the current `transcript_text` -/

theorem getD_zero_mem {l : List Row} (h : l ≠ []) :
    l.getD 0 dummyRow ∈ l := by
  cases l with
  | nil => exact absurd rfl h
  | cons r l => exact List.mem_cons_self r l

/-- C1: in every database state reachable through the public operations,
every stored row's `transcript_sha256` is the SHA-256 hex digest of the
UTF-8 encoding of its stored `transcript_text` — in particular right after
`create_report` and right after any number of `update_transcript` calls. -/
theorem transcript_hash_invariant (db : DB) (h : Reachable db) :
    ∀ r ∈ rowsList db, ∃ s,
      r.transcript_text = some s ∧
      r.transcript_sha256 = some (sha256_text s) := by
  induction h with
  | start =>
      intro r hr
      cases hr
  | migrate _ ih =>
      intro r hr
      simp only [rowsList] at hr
      rw [rows_init_db] at hr
      exact ih r hr
  | @create db0 apiKey presp tAt tDate reportId a _ ih =>
      intro r hr
      rcases hd : deepgram_transcribe apiKey presp with e | ts
      · simp only [create_report, hd, rowsList] at hr
        rw [rows_init_db] at hr
        exact ih r hr
      · simp only [create_report, hd, insertRow] at hr
        by_cases hdup :
            ((init_db db0).rows.any fun x =>
              x.report_id == (newRow tAt tDate reportId a ts).report_id) = true
        · rw [if_pos hdup] at hr
          simp only [rowsList] at hr
          rw [rows_init_db] at hr
          exact ih r hr
        · rw [if_neg hdup] at hr
          simp only [rowsList] at hr
          rcases List.mem_append.mp hr with hold | hnew
          · rw [rows_init_db] at hold
            exact ih r hold
          · rw [List.mem_singleton.mp hnew]
            exact ⟨ts, rfl, rfl⟩
  | @update db0 rid text _ ih =>
      intro r hr
      simp only [update_transcript, rowsList] at hr
      rcases List.mem_map.mp hr with ⟨r0, hr0, rfl⟩
      rw [rows_init_db] at hr0
      unfold updateRow
      split
      · exact ⟨text, rfl, rfl⟩
      · exact ih r0 hr0

/-- Witness for C1: the record created from the `goodPayload` transcription
(`"muro listo "`, stored trimmed) carries the digest of its stored text. -/
theorem transcript_hash_invariant_witness :
    ((rowsList sampleCreatedDB).getD 0 dummyRow).transcript_sha256 =
      some (sha256_text "muro listo") := by
  obtain ⟨s, h1, h2⟩ :=
    transcript_hash_invariant sampleCreatedDB
      (Reachable.create (some "k") okProviderResponse sampleT1 sampleT1
        "rid-1" sampleArgs Reachable.start)
      ((rowsList sampleCreatedDB).getD 0 dummyRow)
      (getD_zero_mem (by decide))
  have htext : ((rowsList sampleCreatedDB).getD 0 dummyRow).transcript_text =
      some "muro listo" := by decide
  rw [htext] at h1
  injection h1 with hs
  rw [h2, ← hs]

/-- Witness for C4: with the credential unset, creating against a two-row
store returns the 400 configuration failure and leaves the rows as they
were. -/
theorem create_aborts_witness :
    rowsList (api_create_report "uploads" none okProviderResponse sampleT1
        sampleT1 "u1" "u2" "rid-1" sampleUpload none none none twoRowDB).1 =
      rowsList twoRowDB ∧
    (api_create_report "uploads" none okProviderResponse sampleT1 sampleT1
        "u1" "u2" "rid-1" sampleUpload none none none twoRowDB).2 =
      .error (400, pyErrStr
        (.runtimeError "Falta DEEPGRAM_API_KEY en variables de entorno.")) :=
  create_aborts_on_transcription_failure "uploads" none okProviderResponse
    sampleT1 sampleT1 "u1" "u2" "rid-1" sampleUpload none none none twoRowDB
    _ rfl

/-- Witness for C5: editing the absent id `"nope"` on the two-row store
yields the 404 outcome. -/
theorem edit_missing_404_witness :
    (api_update_transcript twoRowDB "nope" "texto").2 =
      .error (404, "Reporte no encontrado") :=
  (edit_missing_report_404 twoRowDB "nope" "texto" (by decide)).1

/-- Witness for C10: editing `"r1"` leaves the second row (`"r2"`) of the
two-row store exactly as it was. -/
theorem update_transcript_frame_witness :
    (rowsList (update_transcript twoRowDB "r1" "nuevo").1).getD 1 dummyRow =
      (rowsList twoRowDB).getD 1 dummyRow :=
  ((update_transcript_frame twoRowDB "r1" "nuevo").2 1).2 (by decide)

/-! ## C8: creating without a photo leaves every photo field absent -/

/-- C8: on any successful create-report call with no photo part, the
response carries `photo_url = None` and the single row the call appends has
`photo_url` and `photo_sha256` both NULL (`none`, not an empty string). -/
theorem create_without_photo_no_photo_fields
    (uploadDir : String) (apiKey : Option String) (presp : ProviderResponse)
    (tAt tDate : PyDateTime) (audioUuid photoUuid reportUuid : String)
    (audio : Upload) (user_email project_id : Option String) (db : DB)
    (h : (api_create_report uploadDir apiKey presp tAt tDate audioUuid
        photoUuid reportUuid audio none user_email project_id db).2.isOk =
      true) :
    respPhotoUrl (api_create_report uploadDir apiKey presp tAt tDate
        audioUuid photoUuid reportUuid audio none user_email project_id
        db).2 = some none ∧
    ∃ row,
      rowsList (api_create_report uploadDir apiKey presp tAt tDate audioUuid
          photoUuid reportUuid audio none user_email project_id db).1 =
        rowsList db ++ [row] ∧
      row.photo_url = none ∧ row.photo_sha256 = none := by
  rcases hd : deepgram_transcribe apiKey presp with e | ts
  · simp [api_create_report, create_report, hd, Except.isOk, Except.toBool] at h
  · simp only [api_create_report, create_report, hd, insertRow] at h ⊢
    set a0 : CreateArgs :=
      { audio_path := uploadDir ++ "/audio/" ++
          (audioUuid ++ pyOrStr (splitextExt (audio.filename.getD "")) ".webm"),
        audioContent := audio.content,
        audio_mime := pyOrStr (audio.content_type.getD "") "audio/webm",
        photo_url := none, photo_disk := none,
        user_email := user_email, project_id := project_id } with ha0
    by_cases hdup :
        ((init_db db).rows.any fun x =>
          x.report_id == (newRow tAt tDate reportUuid a0 ts).report_id) = true
    · rw [if_pos hdup] at h
      simp [Except.isOk, Except.toBool] at h
    · rw [if_neg hdup] at h ⊢
      refine ⟨rfl, newRow tAt tDate reportUuid a0 ts, ?_, rfl, rfl⟩
      conv_lhs => simp only [rowsList]
      rw [rows_init_db]

/-- Witness for C8: a concrete successful photo-less creation answers with
`photo_url` null. -/
theorem create_without_photo_witness :
    respPhotoUrl (api_create_report "uploads" (some "k") okProviderResponse
        sampleT1 sampleT1 "u1" "u2" "rid-1" sampleUpload none none
        (some "Frente-1") none).2 = some none :=
  (create_without_photo_no_photo_fields "uploads" (some "k")
    okProviderResponse sampleT1 sampleT1 "u1" "u2" "rid-1" sampleUpload
    none (some "Frente-1") none (by rfl)).1

/-! ## Sorting lemmas for the listing queries -/

theorem insertSorted_perm (le : α → α → Bool) (r : α) :
    ∀ (l : List α), (insertSorted le r l).Perm (r :: l)
  | [] => List.Perm.refl _
  | x :: xs => by
      unfold insertSorted
      split
      · exact List.Perm.refl _
      · exact ((insertSorted_perm le r xs).cons x).trans
          (List.Perm.swap r x xs)

theorem sortRows_perm (le : α → α → Bool) :
    ∀ (l : List α), (sortRows le l).Perm l
  | [] => List.Perm.refl _
  | x :: xs => by
      unfold sortRows
      exact (insertSorted_perm le x (sortRows le xs)).trans
        ((sortRows_perm le xs).cons x)

theorem insertSorted_pairwise (le : α → α → Bool)
    (htrans : ∀ a b c, le a b = true → le b c = true → le a c = true)
    (htotal : ∀ a b, le a b = true ∨ le b a = true) (r : α) :
    ∀ (l : List α), l.Pairwise (fun a b => le a b = true) →
      (insertSorted le r l).Pairwise (fun a b => le a b = true)
  | [], _ =>
      List.pairwise_cons.mpr
        ⟨fun y hy => absurd hy (List.not_mem_nil y), List.Pairwise.nil⟩
  | x :: xs, hl => by
      rcases List.pairwise_cons.mp hl with ⟨hx, hxs⟩
      unfold insertSorted
      split
      · next hle =>
          refine List.pairwise_cons.mpr ⟨?_, hl⟩
          intro y hy
          rcases List.mem_cons.mp hy with rfl | hy
          · exact hle
          · exact htrans r x y hle (hx y hy)
      · next hnle =>
          have hxr : le x r = true := by
            rcases htotal r x with h | h
            · exact absurd h hnle
            · exact h
          refine List.pairwise_cons.mpr ⟨?_, insertSorted_pairwise le htrans htotal r xs hxs⟩
          intro y hy
          rcases List.mem_cons.mp
              ((insertSorted_perm le r xs).mem_iff.mp hy) with rfl | hy
          · exact hxr
          · exact hx y hy

theorem sortRows_pairwise (le : α → α → Bool)
    (htrans : ∀ a b c, le a b = true → le b c = true → le a c = true)
    (htotal : ∀ a b, le a b = true ∨ le b a = true) :
    ∀ (l : List α), (sortRows le l).Pairwise (fun a b => le a b = true)
  | [] => List.Pairwise.nil
  | x :: xs => by
      unfold sortRows
      exact insertSorted_pairwise le htrans htotal x (sortRows le xs)
        (sortRows_pairwise le htrans htotal xs)

theorem sqlTextLe_trans {a b c : String} (hab : sqlTextLe a b = true)
    (hbc : sqlTextLe b c = true) : sqlTextLe a c = true := by
  simp only [sqlTextLe, decide_eq_true_eq] at *
  exact le_trans hab hbc

theorem sqlTextLe_total (a b : String) :
    sqlTextLe a b = true ∨ sqlTextLe b a = true := by
  simp only [sqlTextLe, decide_eq_true_eq]
  exact le_total _ _

theorem createdAtDesc_trans (a b c : Row) (hab : createdAtDesc a b = true)
    (hbc : createdAtDesc b c = true) : createdAtDesc a c = true :=
  sqlTextLe_trans hbc hab

theorem createdAtDesc_total (a b : Row) :
    createdAtDesc a b = true ∨ createdAtDesc b a = true :=
  sqlTextLe_total _ _

theorem createdAtAsc_trans (a b c : Row) (hab : createdAtAsc a b = true)
    (hbc : createdAtAsc b c = true) : createdAtAsc a c = true :=
  sqlTextLe_trans hab hbc

theorem createdAtAsc_total (a b : Row) :
    createdAtAsc a b = true ∨ createdAtAsc b a = true :=
  sqlTextLe_total _ _

/-! ## C6: `list_reports` honours the limit and sorts newest first -/

/-- C6 counterexample: `limit` is a caller-supplied `int`, and SQLite treats
a negative `LIMIT` as no limit — `list_reports(-1)` on a two-row store
returns 2 items, not at most `-1`. -/
theorem list_reports_negative_limit_counterexample :
    ¬ ((((list_reports twoRowDB (-1)).2).length : Int) ≤ -1) := by decide

/-- C6 (amended): for a non-negative limit `n`, `list_reports` returns at
most `n` items; a negative limit returns every row (SQLite's negative
`LIMIT` means unlimited); in both cases the items are ordered by
`created_at` descending. -/
theorem list_reports_limit_and_order (db : DB) (limit : Int) :
    (0 ≤ limit → (((list_reports db limit).2).length : Int) ≤ limit) ∧
    (limit < 0 → ((list_reports db limit).2).length = (rowsList db).length) ∧
    ((list_reports db limit).2).Pairwise
      (fun x y => sqlTextLe y.created_at x.created_at = true) := by
  have hres : (list_reports db limit).2 =
      (sqlLimit limit (sortRows createdAtDesc (rowsList db))).map rowToItem := by
    conv_lhs => simp only [list_reports]
    rw [rows_init_db]
  rw [hres]
  refine ⟨?_, ?_, ?_⟩
  · intro hn
    rw [List.length_map]
    unfold sqlLimit
    rw [if_neg (not_lt.mpr hn), List.length_take]
    have h1 : (limit.toNat ⊓ (sortRows createdAtDesc (rowsList db)).length)
        ≤ limit.toNat := min_le_left _ _
    calc ((limit.toNat ⊓ (sortRows createdAtDesc (rowsList db)).length : Nat) : Int)
        ≤ (limit.toNat : Int) := by exact_mod_cast h1
      _ = limit := Int.toNat_of_nonneg hn
  · intro hn
    rw [List.length_map]
    unfold sqlLimit
    rw [if_pos hn]
    exact (sortRows_perm createdAtDesc (rowsList db)).length_eq
  · refine List.pairwise_map.mpr ?_
    have hsorted := sortRows_pairwise createdAtDesc createdAtDesc_trans
      createdAtDesc_total (rowsList db)
    have hsorted2 : (sortRows createdAtDesc (rowsList db)).Pairwise
        (fun a b =>
          sqlTextLe (rowToItem b).created_at (rowToItem a).created_at = true) :=
      hsorted.imp (fun h => h)
    have hsub : (sqlLimit limit (sortRows createdAtDesc (rowsList db))).Sublist
        (sortRows createdAtDesc (rowsList db)) := by
      unfold sqlLimit
      split
      · exact List.Sublist.refl _
      · exact List.take_sublist _ _
    exact List.Pairwise.sublist hsub hsorted2

/-- Witness for C6 (amended): on the two-row store with limit 1, one item
comes back and it is the newer report. -/
theorem list_reports_limit_witness :
    ((((list_reports twoRowDB 1).2).length : Int) ≤ 1) ∧
      ((list_reports twoRowDB 1).2).Pairwise
        (fun x y => sqlTextLe y.created_at x.created_at = true) :=
  ⟨(list_reports_limit_and_order twoRowDB 1).1 (by decide),
   (list_reports_limit_and_order twoRowDB 1).2.2⟩

/-! ## C2: a 200 payload degrades to an empty transcript only when its
fields are absent — a present-but-malformed field raises -/

/-- C2 counterexample: a 200 response whose `channels` field is present but
an empty list makes `deepgram_transcribe` raise an `IndexError` (the `[0]`
subscript), instead of degrading to an empty transcript. -/
theorem deepgram_malformed_200_raises :
    deepgram_transcribe (some "key") emptyChannelsResponse =
      .error .indexError := rfl

/-- C2 (amended): on a 200 payload whose present extraction-path fields are
well-typed (`benignPayload`), `deepgram_transcribe` raises nothing and
returns a transcript string; when the extraction path hits an absent field
(`transcriptFieldAbsent`), that string is the empty string — the documented
degrade-to-empty default. -/
theorem deepgram_benign_200_ok (key txt : String) (payload : Json)
    (hk : key.isEmpty = false) (hb : benignPayload payload = true) :
    ∃ s, deepgram_transcribe (some key)
      { status := 200, text := txt, json := .ok payload } = .ok s ∧
      (transcriptFieldAbsent payload = true → s = "") := by
  have hex : ∃ s, extractTranscript payload = .ok s ∧
      (transcriptFieldAbsent payload = true → s = "") := by
    cases payload with
    | null => simp [benignPayload] at hb
    | bool b => simp [benignPayload] at hb
    | num n => simp [benignPayload] at hb
    | str s => simp [benignPayload] at hb
    | arr items => simp [benignPayload] at hb
    | obj fs =>
        simp only [benignPayload] at hb
        rcases hres : fs.reverse.lookup "results" with _ | res
        · exact ⟨"", by simp [extractTranscript, pyGet, pyIndex0,
            pyOrEmptyStrip, pyTruthy, hres] <;> decide, fun _ => rfl⟩
        · cases res <;> simp only [hres, Bool.false_eq_true] at hb
          case obj fs2 =>
            rcases hch : fs2.reverse.lookup "channels" with _ | ch
            · exact ⟨"", by simp [extractTranscript, pyGet, pyIndex0,
                pyOrEmptyStrip, pyTruthy, hres, hch] <;> decide,
                fun _ => rfl⟩
            · cases ch <;> simp only [hch, Bool.false_eq_true] at hb
              case arr items =>
                cases items with
                | nil => simp at hb
                | cons c0 rest =>
                    cases c0 <;> simp only [benignChannel, Bool.false_eq_true] at hb
                    case obj fs3 =>
                      rcases halt : fs3.reverse.lookup "alternatives"
                        with _ | alt
                      · exact ⟨"", by simp [extractTranscript, pyGet,
                          pyIndex0, pyOrEmptyStrip, pyTruthy, hres, hch,
                          halt] <;> decide, fun _ => rfl⟩
                      · cases alt <;> simp only [halt, Bool.false_eq_true] at hb
                        case arr alts =>
                          cases alts with
                          | nil => simp at hb
                          | cons a0 arest =>
                              cases a0 <;> simp only [benignAlt, Bool.false_eq_true] at hb
                              case obj fs4 =>
                                rcases ht : fs4.reverse.lookup "transcript"
                                  with _ | v
                                · exact ⟨"", by simp [extractTranscript,
                                    pyGet, pyIndex0, pyOrEmptyStrip,
                                    pyTruthy, hres, hch, halt, ht] <;> decide,
                                    fun _ => rfl⟩
                                · cases v <;> simp only [ht, Bool.false_eq_true] at hb
                                  case str s =>
                                    by_cases hs : pyTruthy (.str s) = true
                                    · refine ⟨pyStrip s, by
                                        simp [extractTranscript, pyGet,
                                          pyIndex0, pyOrEmptyStrip, hres,
                                          hch, halt, ht, hs], ?_⟩
                                      intro habs
                                      simp only [transcriptFieldAbsent,
                                        hres, hch, halt, ht,
                                        Bool.false_eq_true] at habs
                                    · exact ⟨"", by
                                        simp [extractTranscript, pyGet,
                                          pyIndex0, pyOrEmptyStrip, hres,
                                          hch, halt, ht, hs],
                                        fun _ => rfl⟩
                                  case null =>
                                    exact ⟨"", by simp [extractTranscript,
                                      pyGet, pyIndex0, pyOrEmptyStrip,
                                      pyTruthy, hres, hch, halt, ht],
                                      fun _ => rfl⟩
                                  case bool b =>
                                    simp [pyTruthy] at hb
                                    exact ⟨"", by simp [extractTranscript,
                                      pyGet, pyIndex0, pyOrEmptyStrip,
                                      pyTruthy, hres, hch, halt, ht, hb],
                                      fun _ => rfl⟩
                                  case num n =>
                                    simp [pyTruthy] at hb
                                    exact ⟨"", by simp [extractTranscript,
                                      pyGet, pyIndex0, pyOrEmptyStrip,
                                      pyTruthy, hres, hch, halt, ht, hb],
                                      fun _ => rfl⟩
                                  case arr xs =>
                                    simp [pyTruthy] at hb
                                    exact ⟨"", by simp [extractTranscript,
                                      pyGet, pyIndex0, pyOrEmptyStrip,
                                      pyTruthy, hres, hch, halt, ht, hb],
                                      fun _ => rfl⟩
                                  case obj kvs =>
                                    simp [pyTruthy] at hb
                                    exact ⟨"", by simp [extractTranscript,
                                      pyGet, pyIndex0, pyOrEmptyStrip,
                                      pyTruthy, hres, hch, halt, ht, hb],
                                      fun _ => rfl⟩
  rcases hex with ⟨s, hs, habs⟩
  refine ⟨s, ?_, habs⟩
  simp [deepgram_transcribe, hk, hs]

/-- Witness for C2 (amended): the bare 200 payload `{}` — every field
absent — degrades to the empty transcript without raising. -/
theorem deepgram_benign_200_witness :
    deepgram_transcribe (some "k")
      { status := 200, text := "", json := .ok (Json.obj []) } = .ok "" := by
  obtain ⟨s, hs, habs⟩ :=
    deepgram_benign_200_ok "k" "" (Json.obj []) rfl (by decide)
  rw [habs (by decide)] at hs
  exact hs

/-! ## C3: `created_date` versus the date component of `created_at` -/

theorem digitChar10_ne_T (n : Nat) : (digitChar10 n != 'T') = true := by
  unfold digitChar10
  have h : n % 10 < 10 := Nat.mod_lt _ (by norm_num)
  revert h
  generalize n % 10 = k
  intro h
  interval_cases k <;> decide

theorem natDecAux_ne_T :
    ∀ (fuel n : Nat), ∀ c ∈ natDecAux fuel n, (c != 'T') = true := by
  intro fuel
  induction fuel with
  | zero => intro n c hc; cases hc
  | succ fuel ih =>
      intro n c hc
      unfold natDecAux at hc
      split at hc
      · rw [List.mem_singleton.mp hc]
        exact digitChar10_ne_T n
      · rcases List.mem_append.mp hc with h | h
        · exact ih _ c h
        · rw [List.mem_singleton.mp h]
          exact digitChar10_ne_T n

theorem padNum_ne_T (w n : Nat) : ∀ c ∈ (padNum w n).data, (c != 'T') = true := by
  intro c hc
  have hd : (padNum w n).data =
      List.replicate (w - (natDec n).length) '0' ++ natDec n := rfl
  rw [hd] at hc
  rcases List.mem_append.mp hc with h | h
  · rw [List.eq_of_mem_replicate h]
    decide
  · exact natDecAux_ne_T _ _ c h

theorem pyDateIso_ne_T (d : PyDate) :
    ∀ c ∈ (PyDate.iso d).data, (c != 'T') = true := by
  intro c hc
  have hdash : ("-" : String).data = ['-'] := rfl
  simp only [PyDate.iso, String.data_append, hdash, List.mem_append,
    List.mem_singleton] at hc
  rcases hc with ((((h | h) | h) | h) | h)
  · exact padNum_ne_T 4 d.year c h
  · rw [h]; decide
  · exact padNum_ne_T 2 d.month c h
  · rw [h]; decide
  · exact padNum_ne_T 2 d.day c h

theorem takeWhile_append_of (p : Char → Bool) :
    ∀ (a : List Char) (b : Char) (rest : List Char),
      (∀ c ∈ a, p c = true) → p b = false →
      (a ++ b :: rest).takeWhile p = a := by
  intro a
  induction a with
  | nil =>
      intro b rest _ hb
      simp [List.takeWhile_cons, hb]
  | cons x xs ih =>
      intro b rest ha hb
      have hx : p x = true := ha x (List.mem_cons_self x xs)
      simp only [List.cons_append, List.takeWhile_cons, hx, if_true]
      rw [ih b rest (fun c hc => ha c (List.mem_cons_of_mem x hc)) hb]

/-- The `yyyy-mm-dd` prefix of `datetime.isoformat()` is exactly the date's
`isoformat()`: everything before the `T` separator. -/
theorem dateComponent_iso (t : PyDateTime) :
    dateComponent (PyDateTime.iso t) = t.date.iso := by
  have hT : ("T" : String).data = ['T'] := rfl
  have h1 : (PyDateTime.iso t).data = (PyDate.iso t.date).data ++ 'T' ::
      ((padNum 2 t.hour).data ++ (":" : String).data ++
       (padNum 2 t.minute).data ++ (":" : String).data ++
       (padNum 2 t.second).data ++
       (if t.microsecond == 0 then ("" : String)
        else "." ++ padNum 6 t.microsecond).data ++
       ("+00:00" : String).data) := by
    simp [PyDateTime.iso, String.data_append, hT, List.append_assoc]
  unfold dateComponent
  rw [h1, takeWhile_append_of _ _ _ _ (pyDateIso_ne_T t.date) (by decide)]

/-- C3 counterexample: `created_at` and `created_date` come from two
separate clock reads; when the reads straddle midnight UTC the stored
`created_date` is the day after the date component of `created_at`. -/
theorem created_date_counterexample :
    ((rowsList midnightCreatedDB).getD 0 dummyRow).created_date ≠
      some (dateComponent
        ((rowsList midnightCreatedDB).getD 0 dummyRow).created_at) := by
  decide

/-- C3 (amended): `created_date` is the UTC date at the second clock read;
whenever the two reads of `create_report` fall on the same UTC calendar
day — every call that does not straddle midnight — the produced record's
`created_date` equals the date component of its `created_at`. -/
theorem created_date_matches_on_same_day
    (apiKey : Option String) (presp : ProviderResponse)
    (tAt tDate : PyDateTime) (reportId : String) (a : CreateArgs) (db : DB)
    (h : tAt.date = tDate.date) :
    ∀ r ∈ (rowsList (create_report apiKey presp tAt tDate reportId a
        db).1).drop (rowsList db).length,
      r.created_date = some (dateComponent r.created_at) := by
  intro r hr
  rcases hd : deepgram_transcribe apiKey presp with e | ts
  · rw [create_state_error apiKey presp tAt tDate reportId a db e hd,
        rowsList_some_init, List.drop_length] at hr
    cases hr
  · by_cases hdup : ((init_db db).rows.any fun x =>
        x.report_id == (newRow tAt tDate reportId a ts).report_id) = true
    · rw [create_state_dup apiKey presp tAt tDate reportId a db ts hd hdup,
          rowsList_some_init, List.drop_length] at hr
      cases hr
    · rw [create_rows_ok apiKey presp tAt tDate reportId a db ts hd hdup,
          List.drop_left] at hr
      have heq := List.mem_singleton.mp hr
      subst heq
      show some (iso_date_utc tDate) = some (dateComponent (now_iso tAt))
      unfold now_iso iso_date_utc
      rw [dateComponent_iso, h]

/-- Witness for C3 (amended): with both clock reads at the same instant the
stored `created_date` is the date component of `created_at`. -/
theorem created_date_witness :
    ((rowsList sampleCreatedDB).getD 0 dummyRow).created_date =
      some (dateComponent
        ((rowsList sampleCreatedDB).getD 0 dummyRow).created_at) :=
  created_date_matches_on_same_day (some "k") okProviderResponse sampleT1
    sampleT1 "rid-1" sampleArgs none rfl
    ((rowsList sampleCreatedDB).getD 0 dummyRow)
    (getD_zero_mem (by decide))

/-! ## C7: `list_reports_by_date` returns exactly that date's records,
oldest first -/

/-- C7: the daily listing is a permutation of the projections of exactly
the rows whose `created_date` equals the requested date (none missing, none
from another date), ordered by `created_at` ascending. -/
theorem list_by_date_exact_and_sorted (db : DB) (d : String) :
    ((list_reports_by_date db d).2).Perm
      (((rowsList db).filter (fun r => r.created_date == some d)).map
        rowToDateItem) ∧
    ((list_reports_by_date db d).2).Pairwise
      (fun x y => sqlTextLe x.created_at y.created_at = true) := by
  have hres : (list_reports_by_date db d).2 =
      (sortRows createdAtAsc
        ((rowsList db).filter (fun r => r.created_date == some d))).map
        rowToDateItem := by
    conv_lhs => simp only [list_reports_by_date]
    rw [rows_init_db]
  rw [hres]
  constructor
  · exact (sortRows_perm createdAtAsc _).map rowToDateItem
  · refine List.pairwise_map.mpr ?_
    have hsorted := sortRows_pairwise createdAtAsc createdAtAsc_trans
      createdAtAsc_total
      ((rowsList db).filter (fun r => r.created_date == some d))
    exact hsorted.imp (fun h => h)

end Cosapi
